import Mathlib

/-!
Shallow embedding of the go-bh1750 driver (package `bh1750`, file `bh1750.go`).

The driver issues single command bytes over an i2c bus, sleeps settling
times, and decodes 2-byte big-endian raw measurements into lux values.

Modelling conventions:
* Bytes are `Nat` values below 256; the 2-byte bus read yields `Fin 256`
  values since the transport hands back bytes.
* `time.Duration` is modelled as a `Nat` count of nanoseconds (all durations
  in the driver are non-negative and far below 2^63, so the Go int64
  arithmetic agrees with `Nat` arithmetic here).
* Each driver method becomes a function from the receiver state and a bus
  oracle to an `OpResult`: the updated state, the list of bytes passed to
  `WriteBytes` (one byte per call), the list of durations passed to
  `time.Sleep`, and the outcome.
* The Go `error` results are split as the spec does: `busError` for an error
  propagated from the transport, `protocolError` for an `errors.New` raised
  by the driver itself.  In Go, integer division by zero is a runtime panic; that
  outcome is `divByZero`.
-/

namespace BH1750Go

/-- One nanosecond-denominated millisecond, the Go constant `time.Millisecond`. -/
def millisecond : Nat := 1000000

/-- One nanosecond-denominated microsecond, the Go constant `time.Microsecond`. -/
def microsecond : Nat := 1000

/-- Command byte `CMD_POWER_DOWN = 0x00`: no active state. -/
def CMD_POWER_DOWN : Nat := 0x00

/-- Command byte `CMD_POWER_ON = 0x01`: waiting for measurement command. -/
def CMD_POWER_ON : Nat := 0x01

/-- Command byte `CMD_RESET = 0x07`: reset data register value. -/
def CMD_RESET : Nat := 0x07

/-- Command byte `CMD_CONTINUOUSLY_H_RES_MODE = 0x10`. -/
def CMD_CONTINUOUSLY_H_RES_MODE : Nat := 0x10

/-- Command byte `CMD_CONTINUOUSLY_H_RES_MODE2 = 0x11`. -/
def CMD_CONTINUOUSLY_H_RES_MODE2 : Nat := 0x11

/-- Command byte `CMD_CONTINUOUSLY_L_RES_MODE = 0x13`. -/
def CMD_CONTINUOUSLY_L_RES_MODE : Nat := 0x13

/-- Command byte `CMD_ONE_TIME_H_RES_MODE = 0x20`. -/
def CMD_ONE_TIME_H_RES_MODE : Nat := 0x20

/-- Command byte `CMD_ONE_TIME_H_RES_MODE2 = 0x21`. -/
def CMD_ONE_TIME_H_RES_MODE2 : Nat := 0x21

/-- Command byte `CMD_ONE_TIME_L_RES_MODE = 0x23`. -/
def CMD_ONE_TIME_L_RES_MODE : Nat := 0x23

/-- Command byte `CMD_CHANGE_MEAS_TIME_HIGH = 0x40`. -/
def CMD_CHANGE_MEAS_TIME_HIGH : Nat := 0x40

/-- Command byte `CMD_CHANGE_MEAS_TIME_LOW = 0x60`. -/
def CMD_CHANGE_MEAS_TIME_LOW : Nat := 0x60

/-- The type `ResolutionMode` is a Go `int`; the zero value 0 is not one of the three
declared modes, which start at `iota + 1`. -/
def LowResolution : Nat := 1

/-- Mode `HighResolution` (= 2). -/
def HighResolution : Nat := 2

/-- Mode `HighestResolution` (= 3). -/
def HighestResolution : Nat := 3

/-- The `BH1750` struct: last issued command byte, last resolution mode and
the stored sensitivity factor. -/
structure BH1750 where
  lastCmd : Nat
  lastResolution : Nat
  factor : Nat
deriving DecidableEq

/-- The bus oracle standing for the `*i2c.I2C` handle: whether the n-th
`WriteBytes` call of an operation succeeds, and the bytes a 2-byte
`readDataToStruct` delivers (`none` = read error). -/
structure I2C where
  writeOk : Nat → Bool
  readBytes : Option (Fin 256 × Fin 256)

/-- Outcome of one driver method call. -/
inductive Outcome (α : Type) where
  | ok (val : α)
  | busError
  | protocolError
  | divByZero
deriving DecidableEq

/-- Result of one driver method call: updated receiver, bytes passed to
`WriteBytes` (one byte per call), durations passed to `time.Sleep`, and the
outcome. -/
structure OpResult (α : Type) where
  state : BH1750
  writes : List Nat
  sleeps : List Nat
  out : Outcome α
deriving DecidableEq

/-- Method `GetDefaultSensivityFactor` returns the constant 69. -/
def GetDefaultSensivityFactor (_ : BH1750) : Nat := 69

/-- Constructor `NewBH1750`: zero-valued struct, then the factor is set to
`v.GetDefaultSensivityFactor()`. -/
def NewBH1750 : BH1750 :=
  let v : BH1750 := ⟨0, 0, 0⟩
  { v with factor := GetDefaultSensivityFactor v }

/-- Method `getResolutionData`: switch on the resolution (a missing case leaves the
Go zero values `cmd = 0`, `wait = 0`, `divider = 0`), then scale the wait by
`factor / defaultFactor` in integer `time.Duration` arithmetic.  Returns
`(cmd, wait, divider)`. -/
def getResolutionData (v : BH1750) (resolution : Nat) : Nat × Nat × Nat :=
  let base : Nat × Nat × Nat :=
    if resolution = LowResolution then
      (CMD_ONE_TIME_L_RES_MODE, 24 * millisecond, 1)
    else if resolution = HighResolution then
      (CMD_ONE_TIME_H_RES_MODE, 120 * millisecond, 1)
    else if resolution = HighestResolution then
      (CMD_ONE_TIME_H_RES_MODE2, 120 * millisecond, 2)
    else
      (0, 0, 0)
  (base.1, base.2.1 * v.factor / GetDefaultSensivityFactor v, base.2.2)

/-- The `amb` expression shared by `MeasureAmbientLightOneTime` and
`FetchMeasuredAmbientLight`:
`uint16(uint32(uint16(b0)<<8|uint16(b1)) * 5 / 6 / divider)`.
Go panics on integer division by zero, hence `none` when `divider = 0`. -/
def computeAmb (b0 b1 : Fin 256) (divider : Nat) : Option Nat :=
  if divider = 0 then none
  else some ((b0.val <<< 8 ||| b1.val) * 5 / 6 / divider % 65536)

/-- Method `Reset`: write `CMD_RESET`; on success set `lastCmd` and sleep 3 µs. -/
def Reset (v : BH1750) (bus : I2C) : OpResult Unit :=
  if bus.writeOk 0 then
    { state := { v with lastCmd := CMD_RESET }, writes := [CMD_RESET],
      sleeps := [3 * microsecond], out := .ok () }
  else
    { state := v, writes := [CMD_RESET], sleeps := [], out := .busError }

/-- Method `PowerDown`: write `CMD_POWER_DOWN`; on success set `lastCmd`. -/
def PowerDown (v : BH1750) (bus : I2C) : OpResult Unit :=
  if bus.writeOk 0 then
    { state := { v with lastCmd := CMD_POWER_DOWN }, writes := [CMD_POWER_DOWN],
      sleeps := [], out := .ok () }
  else
    { state := v, writes := [CMD_POWER_DOWN], sleeps := [], out := .busError }

/-- Method `PowerOn`: write `CMD_POWER_ON`; on success set `lastCmd`. -/
def PowerOn (v : BH1750) (bus : I2C) : OpResult Unit :=
  if bus.writeOk 0 then
    { state := { v with lastCmd := CMD_POWER_ON }, writes := [CMD_POWER_ON],
      sleeps := [], out := .ok () }
  else
    { state := v, writes := [CMD_POWER_ON], sleeps := [], out := .busError }

/-- Method `MeasureAmbientLightOneTime`: look up `(cmd, wait, divider)`, record
`lastCmd`/`lastResolution` (before the write), write `cmd`, sleep `wait`,
read 2 bytes and decode. -/
def MeasureAmbientLightOneTime (v : BH1750) (bus : I2C) (resolution : Nat) :
    OpResult Nat :=
  let rd := getResolutionData v resolution
  let cmd := rd.1
  let wait := rd.2.1
  let divider := rd.2.2
  let v1 := { v with lastCmd := cmd, lastResolution := resolution }
  if bus.writeOk 0 then
    match bus.readBytes with
    | some (b0, b1) =>
      match computeAmb b0 b1 divider with
      | some amb =>
        { state := v1, writes := [cmd], sleeps := [wait], out := .ok amb }
      | none =>
        { state := v1, writes := [cmd], sleeps := [wait], out := .divByZero }
    | none =>
      { state := v1, writes := [cmd], sleeps := [wait], out := .busError }
  else
    { state := v1, writes := [cmd], sleeps := [], out := .busError }

/-- Method `StartMeasureAmbientLightContinuously`: look up `(cmd, wait, _)`, record
`lastCmd`/`lastResolution` (before the write), write `cmd`, sleep `wait`
once, and return `wait`. -/
def StartMeasureAmbientLightContinuously (v : BH1750) (bus : I2C)
    (resolution : Nat) : OpResult Nat :=
  let rd := getResolutionData v resolution
  let cmd := rd.1
  let wait := rd.2.1
  let v1 := { v with lastCmd := cmd, lastResolution := resolution }
  if bus.writeOk 0 then
    { state := v1, writes := [cmd], sleeps := [wait], out := .ok wait }
  else
    { state := v1, writes := [cmd], sleeps := [], out := .busError }

/-- Method `FetchMeasuredAmbientLight`: look up `(cmd, _, divider)` for the stored
`lastResolution`; error unless `lastCmd = cmd`; otherwise read 2 bytes and
decode. -/
def FetchMeasuredAmbientLight (v : BH1750) (bus : I2C) : OpResult Nat :=
  let rd := getResolutionData v v.lastResolution
  let cmd := rd.1
  let divider := rd.2.2
  if v.lastCmd ≠ cmd then
    { state := v, writes := [], sleeps := [], out := .protocolError }
  else
    match bus.readBytes with
    | some (b0, b1) =>
      match computeAmb b0 b1 divider with
      | some amb => { state := v, writes := [], sleeps := [], out := .ok amb }
      | none => { state := v, writes := [], sleeps := [], out := .divByZero }
    | none => { state := v, writes := [], sleeps := [], out := .busError }

/-- Method `ChangeSensivityFactor`: reject factors outside `[31, 254]`; write
`CMD_CHANGE_MEAS_TIME_HIGH | (factor & 0xE0) >> 5` then
`CMD_CHANGE_MEAS_TIME_LOW | (factor & 0x1F)`; store the factor after both
writes succeed. -/
def ChangeSensivityFactor (v : BH1750) (bus : I2C) (factor : Nat) :
    OpResult Unit :=
  if factor < 31 ∨ 254 < factor then
    { state := v, writes := [], sleeps := [], out := .protocolError }
  else
    let high := (factor &&& 0xE0) >>> 5
    let b1 := CMD_CHANGE_MEAS_TIME_HIGH ||| high
    if bus.writeOk 0 then
      let low := factor &&& 0x1F
      let b2 := CMD_CHANGE_MEAS_TIME_LOW ||| low
      if bus.writeOk 1 then
        { state := { v with factor := factor }, writes := [b1, b2],
          sleeps := [], out := .ok () }
      else
        { state := v, writes := [b1, b2], sleeps := [], out := .busError }
    else
      { state := v, writes := [b1], sleeps := [], out := .busError }

/-- Driver states reachable from `NewBH1750` by any sequence of method
calls, with arbitrary bus behaviour and arguments. -/
inductive Reachable : BH1750 → Prop where
  | new : Reachable NewBH1750
  | reset {v bus} : Reachable v → Reachable (Reset v bus).state
  | powerDown {v bus} : Reachable v → Reachable (PowerDown v bus).state
  | powerOn {v bus} : Reachable v → Reachable (PowerOn v bus).state
  | measureOneTime {v bus r} : Reachable v →
      Reachable (MeasureAmbientLightOneTime v bus r).state
  | startContinuously {v bus r} : Reachable v →
      Reachable (StartMeasureAmbientLightContinuously v bus r).state
  | fetch {v bus} : Reachable v →
      Reachable (FetchMeasuredAmbientLight v bus).state
  | changeFactor {v bus f} : Reachable v →
      Reachable (ChangeSensivityFactor v bus f).state

/-- A bus on which every write succeeds and the 2-byte read returns
`(b0, b1)`. -/
def goodBus (b0 b1 : Fin 256) : I2C :=
  { writeOk := fun _ => true, readBytes := some (b0, b1) }

/-- A bus on which every write fails. -/
def deadBus : I2C :=
  { writeOk := fun _ => false, readBytes := none }

/-- A bus on which writes succeed but the 2-byte read fails. -/
def readFailBus : I2C :=
  { writeOk := fun _ => true, readBytes := none }

/-! ### Helper lemmas -/

/-- The big-endian combination of two bytes is `b0 * 256 + b1`. -/
lemma shiftLeft_or_bytes (b0 b1 : Fin 256) :
    b0.val <<< 8 ||| b1.val = b0.val * 256 + b1.val := by
  have h256 : (2 : Nat) ^ 8 = 256 := by norm_num
  calc b0.val <<< 8 ||| b1.val
      = 2 ^ 8 * b0.val ||| b1.val := by rw [Nat.shiftLeft_eq, Nat.mul_comm]
    _ = 2 ^ 8 * b0.val + b1.val := (Nat.mul_add_lt_is_or (lt_of_lt_of_eq b1.isLt h256.symm) _).symm
    _ = b0.val * 256 + b1.val := by rw [h256, Nat.mul_comm]

/-- With a nonzero divider, the decoded value is below 2^16, so the final
`uint16` conversion is the identity. -/
lemma computeAmb_eq (b0 b1 : Fin 256) (d : Nat) (hd : d ≠ 0) :
    computeAmb b0 b1 d = some ((b0.val * 256 + b1.val) * 5 / 6 / d) := by
  have hb0 := b0.isLt
  have hb1 := b1.isLt
  have hlt : (b0.val * 256 + b1.val) * 5 / 6 / d < 65536 :=
    lt_of_le_of_lt (Nat.div_le_self _ d) (by omega)
  rw [computeAmb, if_neg hd, shiftLeft_or_bytes, Nat.mod_eq_of_lt hlt]

lemma and_E0_shiftRight (f : Nat) (hf : f < 256) :
    (f &&& 0xE0) >>> 5 = f >>> 5 := by
  revert hf
  revert f
  set_option maxRecDepth 2000 in decide

/-! ### Claims -/

/-- C1: the spec says `FetchMeasuredAmbientLight` must fail with a usage
error whenever `lastCmd` is not the continuous-mode command for the stored
resolution, and in particular whenever no matching
`StartMeasureAmbientLightContinuously` preceded it.  The code instead
compares `lastCmd` with the one-time command returned by
`getResolutionData`: after `MeasureAmbientLightOneTime(HighResolution)` the
stored command is `CMD_ONE_TIME_H_RES_MODE` (not the continuous command),
yet the fetch passes the check and returns a lux value. -/
theorem fetch_succeeds_after_one_time_measure :
    (MeasureAmbientLightOneTime NewBH1750 (goodBus 1 0x68)
        HighResolution).state.lastCmd = CMD_ONE_TIME_H_RES_MODE
    ∧ CMD_ONE_TIME_H_RES_MODE ≠ CMD_CONTINUOUSLY_H_RES_MODE
    ∧ (FetchMeasuredAmbientLight
        (MeasureAmbientLightOneTime NewBH1750 (goodBus 1 0x68)
          HighResolution).state
        (goodBus 1 0x68)).out = .ok 300
    ∧ (FetchMeasuredAmbientLight
        (MeasureAmbientLightOneTime NewBH1750 (goodBus 1 0x68)
          HighResolution).state
        (goodBus 1 0x68)).out ≠ .protocolError := by
  decide

/-- C2: the spec says `StartMeasureAmbientLightContinuously` writes the
continuous-mode command byte (0x13/0x10/0x11).  The code writes the
one-time command byte returned by `getResolutionData`
(0x23/0x20/0x21) instead; the continuous-mode constants are never used. -/
theorem start_continuous_writes_one_time_command :
    (StartMeasureAmbientLightContinuously NewBH1750 (goodBus 0 0)
        LowResolution).writes = [CMD_ONE_TIME_L_RES_MODE]
    ∧ (StartMeasureAmbientLightContinuously NewBH1750 (goodBus 0 0)
        HighResolution).writes = [CMD_ONE_TIME_H_RES_MODE]
    ∧ (StartMeasureAmbientLightContinuously NewBH1750 (goodBus 0 0)
        HighestResolution).writes = [CMD_ONE_TIME_H_RES_MODE2]
    ∧ CMD_ONE_TIME_L_RES_MODE ≠ CMD_CONTINUOUSLY_L_RES_MODE
    ∧ CMD_ONE_TIME_H_RES_MODE ≠ CMD_CONTINUOUSLY_H_RES_MODE
    ∧ CMD_ONE_TIME_H_RES_MODE2 ≠ CMD_CONTINUOUSLY_H_RES_MODE2 := by
  decide

/-- C9: on a freshly constructed driver (`lastCmd = 0`,
`lastResolution = 0`), `getResolutionData` falls through the switch and
yields command byte 0 and divider 0; the last-command check of
`FetchMeasuredAmbientLight` passes because both sides are 0, so no usage
error is reported, and a successful 2-byte read runs into the division by
the zero divider. -/
theorem fresh_fetch_divides_by_zero (b0 b1 : Fin 256) :
    (getResolutionData NewBH1750 NewBH1750.lastResolution).1 = 0
    ∧ (getResolutionData NewBH1750 NewBH1750.lastResolution).2.2 = 0
    ∧ NewBH1750.lastCmd = 0
    ∧ (FetchMeasuredAmbientLight NewBH1750 (goodBus b0 b1)).out
        ≠ .protocolError
    ∧ (FetchMeasuredAmbientLight NewBH1750 (goodBus b0 b1)).out
        = .divByZero := by
  have hdz : (FetchMeasuredAmbientLight NewBH1750 (goodBus b0 b1)).out
      = Outcome.divByZero := rfl
  refine ⟨rfl, rfl, rfl, ?_, hdz⟩
  rw [hdz]
  decide

/-- C5: `ChangeSensivityFactor` returns the protocol (usage) error, and
performs no bus write, exactly when the requested factor lies outside
`[31, 254]`; in range it never raises that error and leaves the state
untouched only on bus failure. -/
theorem change_factor_rejects_out_of_range (v : BH1750) (bus : I2C)
    (factor : Nat) :
    ((ChangeSensivityFactor v bus factor).out = .protocolError
      ↔ factor < 31 ∨ 254 < factor)
    ∧ (factor < 31 ∨ 254 < factor →
        (ChangeSensivityFactor v bus factor).writes = []
        ∧ (ChangeSensivityFactor v bus factor).state = v) := by
  by_cases h : factor < 31 ∨ 254 < factor
  · simp [ChangeSensivityFactor, h]
  · refine ⟨?_, fun hc => absurd hc h⟩
    simp only [ChangeSensivityFactor, if_neg h]
    cases hw0 : bus.writeOk 0 <;> cases hw1 : bus.writeOk 1 <;>
      simp [hw0, hw1, h]

/-- Witness for C5 at the concrete rejected factor 30 and accepted
factor 31. -/
theorem change_factor_rejects_out_of_range_witness :
    ((ChangeSensivityFactor NewBH1750 deadBus 30).out = .protocolError
      ∧ (ChangeSensivityFactor NewBH1750 deadBus 30).writes = [])
    ∧ (ChangeSensivityFactor NewBH1750 deadBus 31).out ≠ .protocolError :=
  ⟨⟨(change_factor_rejects_out_of_range NewBH1750 deadBus 30).1.mpr
      (by decide),
    ((change_factor_rejects_out_of_range NewBH1750 deadBus 30).2
      (by decide)).1⟩,
   fun h => by
    have := (change_factor_rejects_out_of_range NewBH1750 deadBus 31).1.mp h
    omega⟩

/-- C3: for any bytes delivered by the 2-byte read and any of the three
resolutions, both `MeasureAmbientLightOneTime` and
`FetchMeasuredAmbientLight` decode big-endian and return
`(b0 * 256 + b1) * 5 / 6 / divider` with the divider 2 for
`HighestResolution` and 1 otherwise, the divisions performed in that
order. -/
theorem measure_and_fetch_decode_lux (v : BH1750) (b0 b1 : Fin 256)
    (res : Nat)
    (hres : res = LowResolution ∨ res = HighResolution
      ∨ res = HighestResolution) :
    (MeasureAmbientLightOneTime v (goodBus b0 b1) res).out
      = .ok ((b0.val * 256 + b1.val) * 5 / 6
          / (if res = HighestResolution then 2 else 1))
    ∧ (FetchMeasuredAmbientLight
        { v with lastCmd := (getResolutionData v res).1,
                 lastResolution := res }
        (goodBus b0 b1)).out
      = .ok ((b0.val * 256 + b1.val) * 5 / 6
          / (if res = HighestResolution then 2 else 1)) := by
  rcases hres with rfl | rfl | rfl <;>
    constructor <;>
      simp [MeasureAmbientLightOneTime, FetchMeasuredAmbientLight,
        getResolutionData, goodBus, computeAmb_eq, LowResolution,
        HighResolution, HighestResolution, CMD_ONE_TIME_L_RES_MODE,
        CMD_ONE_TIME_H_RES_MODE, CMD_ONE_TIME_H_RES_MODE2,
        GetDefaultSensivityFactor]

/-- Witness for C3 at the datasheet sample: raw value 0x0168 = 360 with
divider 1 decodes to 300 lux. -/
theorem measure_and_fetch_decode_lux_witness :
    (MeasureAmbientLightOneTime NewBH1750 (goodBus 1 0x68)
        HighResolution).out = .ok 300
    ∧ (FetchMeasuredAmbientLight
        { NewBH1750 with
            lastCmd := (getResolutionData NewBH1750 HighResolution).1,
            lastResolution := HighResolution }
        (goodBus 1 0x68)).out = .ok 300 :=
  measure_and_fetch_decode_lux NewBH1750 1 0x68 HighResolution
    (Or.inr (Or.inl rfl))

/-- C4: for any of the three resolutions and a stored factor in
`[31, 254]`, the wait slept by `MeasureAmbientLightOneTime` and slept and
returned by `StartMeasureAmbientLightContinuously` is the nominal wait
(24 ms for low resolution, 120 ms otherwise) times the factor divided
by 69, and with the default factor 69 it equals the nominal wait
exactly. -/
theorem wait_time_scales_with_factor (v : BH1750) (bus : I2C) (res : Nat)
    (hw : bus.writeOk 0 = true)
    (h31 : 31 ≤ v.factor) (h254 : v.factor ≤ 254)
    (hres : res = LowResolution ∨ res = HighResolution
      ∨ res = HighestResolution) :
    (MeasureAmbientLightOneTime v bus res).sleeps
      = [(if res = LowResolution then 24 * millisecond
          else 120 * millisecond) * v.factor / 69]
    ∧ (StartMeasureAmbientLightContinuously v bus res).sleeps
      = [(if res = LowResolution then 24 * millisecond
          else 120 * millisecond) * v.factor / 69]
    ∧ (StartMeasureAmbientLightContinuously v bus res).out
      = .ok ((if res = LowResolution then 24 * millisecond
          else 120 * millisecond) * v.factor / 69)
    ∧ (v.factor = 69 →
        (if res = LowResolution then 24 * millisecond
          else 120 * millisecond) * v.factor / 69
        = (if res = LowResolution then 24 * millisecond
          else 120 * millisecond)) := by
  have hcancel : v.factor = 69 →
      (if res = LowResolution then 24 * millisecond
        else 120 * millisecond) * v.factor / 69
      = (if res = LowResolution then 24 * millisecond
        else 120 * millisecond) := by
    intro h69
    rw [h69]
    exact Nat.mul_div_cancel _ (by norm_num)
  rcases hres with rfl | rfl | rfl <;>
    refine ⟨?_, ?_, ?_, hcancel⟩ <;>
      cases hrb : bus.readBytes <;>
        simp [MeasureAmbientLightOneTime,
          StartMeasureAmbientLightContinuously, getResolutionData, hw, hrb,
          LowResolution, HighResolution, HighestResolution,
          GetDefaultSensivityFactor, computeAmb]

/-- Witness for C4 at the default factor 69 and low resolution: the wait
is exactly 24 ms. -/
theorem wait_time_scales_with_factor_witness :
    (MeasureAmbientLightOneTime NewBH1750 (goodBus 0 0)
        LowResolution).sleeps = [24 * millisecond]
    ∧ (StartMeasureAmbientLightContinuously NewBH1750 (goodBus 0 0)
        LowResolution).out = .ok (24 * millisecond) := by
  have h := wait_time_scales_with_factor NewBH1750 (goodBus 0 0)
    LowResolution rfl (by decide) (by decide) (Or.inl rfl)
  have h69 : NewBH1750.factor = 69 := rfl
  exact ⟨by rw [h.1, h.2.2.2 h69]; simp,
    by rw [h.2.2.1, h.2.2.2 h69]; simp⟩

/-- C6: an accepted factor is split into its high 3 bits and low 5 bits
and exactly two single-byte writes are issued, `0x40 ||| (factor >>> 5)`
then `0x60 ||| (factor &&& 0x1F)`, after which the stored factor equals
the argument. -/
theorem change_factor_write_bytes (v : BH1750) (bus : I2C) (factor : Nat)
    (h31 : 31 ≤ factor) (h254 : factor ≤ 254)
    (hw0 : bus.writeOk 0 = true) (hw1 : bus.writeOk 1 = true) :
    (ChangeSensivityFactor v bus factor).writes
      = [CMD_CHANGE_MEAS_TIME_HIGH ||| factor >>> 5,
         CMD_CHANGE_MEAS_TIME_LOW ||| (factor &&& 0x1F)]
    ∧ (ChangeSensivityFactor v bus factor).out = .ok ()
    ∧ (ChangeSensivityFactor v bus factor).state.factor = factor := by
  have hr : ¬(factor < 31 ∨ 254 < factor) := by omega
  have hhigh := and_E0_shiftRight factor (by omega)
  simp [ChangeSensivityFactor, hr, hw0, hw1, hhigh]

/-- Witness for C6 at the default factor 69 = 0b01000101: the two bytes
written are `0x42` and `0x65`. -/
theorem change_factor_write_bytes_witness :
    (ChangeSensivityFactor NewBH1750 (goodBus 0 0) 69).writes = [0x42, 0x65]
    ∧ (ChangeSensivityFactor NewBH1750 (goodBus 0 0) 69).state.factor
        = 69 := by
  have h := change_factor_write_bytes NewBH1750 (goodBus 0 0) 69
    (by decide) (by decide) rfl rfl
  exact ⟨by rw [h.1]; decide, h.2.2⟩

/-! Preservation of the stored factor by every operation except
`ChangeSensivityFactor`. -/

lemma Reset_factor (v : BH1750) (bus : I2C) :
    (Reset v bus).state.factor = v.factor := by
  unfold Reset; split <;> rfl

lemma PowerDown_factor (v : BH1750) (bus : I2C) :
    (PowerDown v bus).state.factor = v.factor := by
  unfold PowerDown; split <;> rfl

lemma PowerOn_factor (v : BH1750) (bus : I2C) :
    (PowerOn v bus).state.factor = v.factor := by
  unfold PowerOn; split <;> rfl

lemma MeasureAmbientLightOneTime_factor (v : BH1750) (bus : I2C) (r : Nat) :
    (MeasureAmbientLightOneTime v bus r).state.factor = v.factor := by
  unfold MeasureAmbientLightOneTime
  dsimp only
  split
  · split
    · split <;> rfl
    · rfl
  · rfl

lemma StartMeasureAmbientLightContinuously_factor (v : BH1750) (bus : I2C)
    (r : Nat) :
    (StartMeasureAmbientLightContinuously v bus r).state.factor
      = v.factor := by
  unfold StartMeasureAmbientLightContinuously
  dsimp only
  split <;> rfl

lemma FetchMeasuredAmbientLight_factor (v : BH1750) (bus : I2C) :
    (FetchMeasuredAmbientLight v bus).state.factor = v.factor := by
  unfold FetchMeasuredAmbientLight
  dsimp only
  split
  · rfl
  · split
    · split <;> rfl
    · rfl

lemma ChangeSensivityFactor_factor (v : BH1750) (bus : I2C) (f : Nat) :
    ((ChangeSensivityFactor v bus f).out = .ok () →
      31 ≤ f ∧ f ≤ 254 ∧ (ChangeSensivityFactor v bus f).state.factor = f)
    ∧ ((ChangeSensivityFactor v bus f).out ≠ .ok () →
      (ChangeSensivityFactor v bus f).state.factor = v.factor) := by
  by_cases h : f < 31 ∨ 254 < f
  · simp [ChangeSensivityFactor, h]
  · cases hw0 : bus.writeOk 0 <;> cases hw1 : bus.writeOk 1 <;>
      simp [ChangeSensivityFactor, h, hw0, hw1] <;> omega

/-- C7: the stored sensitivity factor is 69 on a fresh driver and stays in
`[31, 254]` in every reachable state; `ChangeSensivityFactor` is the only
operation that modifies it, stores only in-range values, and leaves it
unchanged whenever it returns an error. -/
theorem sensitivity_factor_invariant :
    NewBH1750.factor = 69
    ∧ (∀ v, Reachable v → 31 ≤ v.factor ∧ v.factor ≤ 254)
    ∧ (∀ v bus f, (ChangeSensivityFactor v bus f).out = .ok () →
        31 ≤ f ∧ f ≤ 254
        ∧ (ChangeSensivityFactor v bus f).state.factor = f)
    ∧ (∀ v bus f, (ChangeSensivityFactor v bus f).out ≠ .ok () →
        (ChangeSensivityFactor v bus f).state.factor = v.factor)
    ∧ (∀ v bus, (Reset v bus).state.factor = v.factor
        ∧ (PowerDown v bus).state.factor = v.factor
        ∧ (PowerOn v bus).state.factor = v.factor
        ∧ (FetchMeasuredAmbientLight v bus).state.factor = v.factor)
    ∧ (∀ v bus r,
        (MeasureAmbientLightOneTime v bus r).state.factor = v.factor
        ∧ (StartMeasureAmbientLightContinuously v bus r).state.factor
            = v.factor) := by
  refine ⟨rfl, ?_, fun v bus f => (ChangeSensivityFactor_factor v bus f).1,
    fun v bus f => (ChangeSensivityFactor_factor v bus f).2,
    fun v bus => ⟨Reset_factor v bus, PowerDown_factor v bus,
      PowerOn_factor v bus, FetchMeasuredAmbientLight_factor v bus⟩,
    fun v bus r => ⟨MeasureAmbientLightOneTime_factor v bus r,
      StartMeasureAmbientLightContinuously_factor v bus r⟩⟩
  intro v h
  induction h with
  | new => decide
  | reset h ih => rw [Reset_factor]; exact ih
  | powerDown h ih => rw [PowerDown_factor]; exact ih
  | powerOn h ih => rw [PowerOn_factor]; exact ih
  | measureOneTime h ih => rw [MeasureAmbientLightOneTime_factor]; exact ih
  | startContinuously h ih =>
      rw [StartMeasureAmbientLightContinuously_factor]; exact ih
  | fetch h ih => rw [FetchMeasuredAmbientLight_factor]; exact ih
  | changeFactor h ih =>
      rename_i v bus f
      by_cases hok : (ChangeSensivityFactor v bus f).out = .ok ()
      · have hs := (ChangeSensivityFactor_factor v bus f).1 hok
        rw [hs.2.2]
        exact ⟨hs.1, hs.2.1⟩
      · rw [(ChangeSensivityFactor_factor v bus f).2 hok]
        exact ih

/-- Witness for C7: the fresh driver is reachable and its factor lies in
the range. -/
theorem sensitivity_factor_invariant_witness :
    31 ≤ NewBH1750.factor ∧ NewBH1750.factor ≤ 254 :=
  sensitivity_factor_invariant.2.1 NewBH1750 Reachable.new

/-- C8: `Reset`, `PowerDown` and `PowerOn` each write exactly their single
command byte; on success they store it in `lastCmd`, and on a failed write
they return the bus error with the state unchanged. -/
theorem single_byte_command_ops (v : BH1750) (bus : I2C) :
    (Reset v bus).writes = [CMD_RESET]
    ∧ (PowerDown v bus).writes = [CMD_POWER_DOWN]
    ∧ (PowerOn v bus).writes = [CMD_POWER_ON]
    ∧ (bus.writeOk 0 = true →
        (Reset v bus).state = { v with lastCmd := CMD_RESET }
        ∧ (Reset v bus).out = .ok ()
        ∧ (PowerDown v bus).state = { v with lastCmd := CMD_POWER_DOWN }
        ∧ (PowerDown v bus).out = .ok ()
        ∧ (PowerOn v bus).state = { v with lastCmd := CMD_POWER_ON }
        ∧ (PowerOn v bus).out = .ok ())
    ∧ (bus.writeOk 0 = false →
        (Reset v bus).state = v ∧ (Reset v bus).out = .busError
        ∧ (PowerDown v bus).state = v
        ∧ (PowerDown v bus).out = .busError
        ∧ (PowerOn v bus).state = v
        ∧ (PowerOn v bus).out = .busError) := by
  cases h : bus.writeOk 0 <;> simp [Reset, PowerDown, PowerOn, h]

/-- Witness for C8 on a failing bus: all three operations leave the fresh
state untouched and report the bus error. -/
theorem single_byte_command_ops_witness :
    (Reset NewBH1750 deadBus).writes = [CMD_RESET]
    ∧ ((Reset NewBH1750 deadBus).state = NewBH1750
        ∧ (Reset NewBH1750 deadBus).out = .busError
        ∧ (PowerDown NewBH1750 deadBus).state = NewBH1750
        ∧ (PowerDown NewBH1750 deadBus).out = .busError
        ∧ (PowerOn NewBH1750 deadBus).state = NewBH1750
        ∧ (PowerOn NewBH1750 deadBus).out = .busError) :=
  ⟨(single_byte_command_ops NewBH1750 deadBus).1,
   (single_byte_command_ops NewBH1750 deadBus).2.2.2.2 rfl⟩

/-- C10: `MeasureAmbientLightOneTime` and
`StartMeasureAmbientLightContinuously` store `lastCmd` and
`lastResolution` before issuing the bus write, so on a failed write (or a
failed read in the former) the error is returned with the state already
mutated, whereas `Reset`, `PowerDown` and `PowerOn` leave the state
unchanged on a failed write. -/
theorem state_mutated_before_failed_write (v : BH1750) (bus bus2 : I2C)
    (res : Nat) (hw : bus.writeOk 0 = false)
    (hw2 : bus2.writeOk 0 = true) (hr2 : bus2.readBytes = none) :
    ((MeasureAmbientLightOneTime v bus res).out = .busError
      ∧ (MeasureAmbientLightOneTime v bus res).state.lastCmd
          = (getResolutionData v res).1
      ∧ (MeasureAmbientLightOneTime v bus res).state.lastResolution = res)
    ∧ ((StartMeasureAmbientLightContinuously v bus res).out = .busError
      ∧ (StartMeasureAmbientLightContinuously v bus res).state.lastCmd
          = (getResolutionData v res).1
      ∧ (StartMeasureAmbientLightContinuously v bus
          res).state.lastResolution = res)
    ∧ ((MeasureAmbientLightOneTime v bus2 res).out = .busError
      ∧ (MeasureAmbientLightOneTime v bus2 res).state.lastCmd
          = (getResolutionData v res).1
      ∧ (MeasureAmbientLightOneTime v bus2 res).state.lastResolution = res)
    ∧ ((Reset v bus).state = v ∧ (PowerDown v bus).state = v
      ∧ (PowerOn v bus).state = v) := by
  refine ⟨?_, ?_, ?_, ?_⟩ <;>
    simp [MeasureAmbientLightOneTime, StartMeasureAmbientLightContinuously,
      Reset, PowerDown, PowerOn, hw, hw2, hr2]

/-- Witness for C10 on concrete failing buses at high resolution. -/
theorem state_mutated_before_failed_write_witness :
    ((MeasureAmbientLightOneTime NewBH1750 deadBus HighResolution).out
        = .busError
      ∧ (MeasureAmbientLightOneTime NewBH1750 deadBus
          HighResolution).state.lastCmd
          = (getResolutionData NewBH1750 HighResolution).1
      ∧ (MeasureAmbientLightOneTime NewBH1750 deadBus
          HighResolution).state.lastResolution = HighResolution)
    ∧ ((StartMeasureAmbientLightContinuously NewBH1750 deadBus
          HighResolution).out = .busError
      ∧ (StartMeasureAmbientLightContinuously NewBH1750 deadBus
          HighResolution).state.lastCmd
          = (getResolutionData NewBH1750 HighResolution).1
      ∧ (StartMeasureAmbientLightContinuously NewBH1750 deadBus
          HighResolution).state.lastResolution = HighResolution)
    ∧ ((MeasureAmbientLightOneTime NewBH1750 readFailBus
          HighResolution).out = .busError
      ∧ (MeasureAmbientLightOneTime NewBH1750 readFailBus
          HighResolution).state.lastCmd
          = (getResolutionData NewBH1750 HighResolution).1
      ∧ (MeasureAmbientLightOneTime NewBH1750 readFailBus
          HighResolution).state.lastResolution = HighResolution)
    ∧ ((Reset NewBH1750 deadBus).state = NewBH1750
      ∧ (PowerDown NewBH1750 deadBus).state = NewBH1750
      ∧ (PowerOn NewBH1750 deadBus).state = NewBH1750) :=
  state_mutated_before_failed_write NewBH1750 deadBus readFailBus
    HighResolution rfl rfl rfl

end BH1750Go
